import Mathlib

/-!
Verification of the cam-web-server scheduling and queueing core.

Two source modules carry all the verified behaviour:
* `ImageQueue` (continuous detection queue): start/stop lifecycle, the
  self-re-arming capture timer, and the serialized queue processor that
  classifies each captured frame and updates running statistics.
* `CollectionScheduler` (persisted capture-schedule planner): slot
  generation from a schedule specification, the per-slot capture burst,
  start/pause/resume/cancel lifecycle, and crash recovery from the
  persisted state.

The embedding below translates those JavaScript classes into pure Lean
functions.  Mutable instance state becomes explicit state records that
operations take and return; `setTimeout` chains become explicit fire-time
recurrences; filesystem and camera effects are recorded as explicit flags
or oracles (an oracle says whether each external call succeeds, and with
what classification result).
-/

namespace CamWeb

/-! ## ImageQueue: data model -/

/-- Running statistics of the detection queue, mirroring the `stats` object
of the `ImageQueue` constructor: `{total, anomalies, normal, errors,
startTime}`. -/
structure Stats where
  total : Nat
  anomalies : Nat
  normal : Nat
  errors : Nat
  startTime : Option Nat
  deriving DecidableEq

/-- Lifecycle status of a queue item (`status` field of a queue entry). -/
inductive ItemStatus
  | pending
  | processing
  | completed
  | error
  deriving DecidableEq

/-- A captured frame awaiting classification.  The raw image bytes are not
modelled (no claim depends on their content); `id` is the capture
timestamp, as in `captureImage`. -/
structure QueueItem where
  id : Nat
  filename : String
  timestamp : Nat
  deriving DecidableEq

/-- Result object returned by `torchserveClient.predict`.  Only the fields
the queue inspects are modelled: `is_anomaly` and `predicted_class`. -/
structure PredictResult where
  is_anomaly : Bool
  predicted_class : String
  deriving DecidableEq

/-- Outcome of one `predict` call: success with a result, or a thrown
error with a message. -/
inductive PredictOutcome
  | ok (result : PredictResult)
  | fail (msg : String)
  deriving DecidableEq

/-- Notifications emitted by the queue processor (`this.emit(...)` calls). -/
inductive QueueEvent
  | processing (id : Nat)
  | anomaly (id : Nat) (result : PredictResult) (path : String)
  | normal (id : Nat) (result : PredictResult)
  | completed (id : Nat) (result : PredictResult) (isAnomaly : Bool)
  | error (id : Nat) (msg : String)
  deriving DecidableEq

/-- Mutable instance state of `ImageQueue`.  The numeric `threshold` is a
fractional value in the source; its exact magnitude never matters to any
claim, so it is modelled as an integer-scaled value.  `captureTimer`
records whether a capture timeout is currently armed. -/
structure ImageQueueState where
  isRunning : Bool
  interval : Nat
  threshold : Int
  includeOverlay : Bool
  keepOnlyAnomalies : Bool
  saveDir : String
  queue : List QueueItem
  stats : Stats
  captureTimer : Bool
  deriving DecidableEq

/-- Configuration object accepted by `ImageQueue.start` (each field is
optional, matching the sparse `config` object of the source). -/
structure StartConfig where
  interval : Option Nat
  threshold : Option Int
  includeOverlay : Option Bool
  keepOnlyAnomalies : Option Bool
  deriving DecidableEq

/-- Return value of `ImageQueue.stop`: the source returns
`{success: false, message: 'Queue not running'}` when idle and
`{success: true, stats}` when running. -/
structure StopResult where
  success : Bool
  message : Option String
  stats : Option Stats
  deriving DecidableEq

/-! ## ImageQueue: operations -/

/-- JavaScript truthiness update `if (config.interval) this.interval = config.interval`:
a present-but-zero value is ignored (0 is falsy). -/
def jsOrNat (v : Option Nat) (dflt : Nat) : Nat :=
  match v with
  | some n => if n = 0 then dflt else n
  | none => dflt

namespace ImageQueue

/-- State produced by a successful `start(config)` call: configuration
fields updated, stats reset with `startTime = now`, running flag set and
the first capture timeout armed. -/
def startedState (s : ImageQueueState) (cfg : StartConfig) (now : Nat) : ImageQueueState :=
  { s with
    interval := jsOrNat cfg.interval s.interval
    threshold := cfg.threshold.getD s.threshold
    includeOverlay := cfg.includeOverlay.getD s.includeOverlay
    keepOnlyAnomalies := cfg.keepOnlyAnomalies.getD s.keepOnlyAnomalies
    stats := { total := 0, anomalies := 0, normal := 0, errors := 0, startTime := some now }
    isRunning := true
    captureTimer := true }

/-- `ImageQueue.start`: throws "Queue already running" when re-entered on a
running queue, otherwise updates configuration, resets stats and starts
the capture timer and the queue processor. -/
def start (s : ImageQueueState) (cfg : StartConfig) (now : Nat) :
    Except String ImageQueueState :=
  if s.isRunning then Except.error "Queue already running"
  else Except.ok (startedState s cfg now)

/-- `ImageQueue.stop`: on an idle queue returns
`{success: false, message: 'Queue not running'}` without touching any
state; on a running queue clears the running flag and the capture timeout
and returns `{success: true, stats}`. -/
def stop (s : ImageQueueState) : ImageQueueState × StopResult :=
  if s.isRunning then
    ({ s with isRunning := false, captureTimer := false },
     { success := true, message := none, stats := some s.stats })
  else
    (s, { success := false, message := some "Queue not running", stats := none })

/-- Fire instants of the successive capture triggers armed by
`scheduleNextCapture`.  The source arms a timeout of `interval` ms; its
callback first awaits `captureImage` (taking `duration n` ms for the n-th
trigger, error handling included) and only afterwards calls
`scheduleNextCapture` again, which arms the next timeout of `interval` ms
measured from that completion instant.  Hence trigger 0 fires `interval`
ms after `startInstant`, and trigger n+1 fires `duration n + interval` ms
after trigger n fires. -/
def triggerTime (startInstant interval : Nat) (duration : Nat → Nat) : Nat → Nat
  | 0 => startInstant + interval
  | n + 1 => triggerTime startInstant interval duration n + duration n + interval

/-- The `predicted_class` label the processor compares against
(`result.predicted_class === 'anomalous'` in spirit; the source uses
`result.predicted_class === 'anomalous'` via `||`). -/
def anomalousLabel : String := "anomalous"

/-- `ImageQueue.saveImage`: the image is written to
`path.join(this.saveDir, item.filename)`; the join is modelled as
slash-concatenation. -/
def saveImage (saveDir : String) (item : QueueItem) : String :=
  saveDir ++ "/" ++ item.filename

/-- Record of one item after the processor is done with it: terminal
status, classification result, storage location, error message. -/
structure ProcessedItem where
  status : ItemStatus
  result : Option PredictResult
  savedPath : Option String
  errMsg : Option String
  deriving DecidableEq

/-- Body of one iteration of `processQueue` for a dequeued `item`, given
the outcome of the `predict` call.  Returns the updated state, the item's
terminal record and the emitted notifications in order.  On success the
processor increments `stats.total`, decides
`isAnomaly = result.is_anomaly || result.predicted_class === 'anomalous'`,
and branches: anomalies increment `stats.anomalies`, are always saved and
produce an `anomaly` event; normal results increment `stats.normal` and
are saved only when `keepOnlyAnomalies` is false; both emit `completed`.
On failure `stats.errors` is incremented and an `error` event is
emitted. -/
def processItem (s : ImageQueueState) (item : QueueItem) (outcome : PredictOutcome) :
    ImageQueueState × ProcessedItem × List QueueEvent :=
  match outcome with
  | PredictOutcome.ok result =>
    let stats1 : Stats := { s.stats with total := s.stats.total + 1 }
    let isAnomaly := result.is_anomaly || result.predicted_class == anomalousLabel
    if isAnomaly then
      let savedPath := saveImage s.saveDir item
      ({ s with stats := { stats1 with anomalies := stats1.anomalies + 1 } },
       { status := ItemStatus.completed, result := some result,
         savedPath := some savedPath, errMsg := none },
       [QueueEvent.processing item.id,
        QueueEvent.anomaly item.id result savedPath,
        QueueEvent.completed item.id result true])
    else
      let savedPath := if s.keepOnlyAnomalies then none else some (saveImage s.saveDir item)
      ({ s with stats := { stats1 with normal := stats1.normal + 1 } },
       { status := ItemStatus.completed, result := some result,
         savedPath := savedPath, errMsg := none },
       [QueueEvent.processing item.id,
        QueueEvent.normal item.id result,
        QueueEvent.completed item.id result false])
  | PredictOutcome.fail msg =>
    ({ s with stats := { s.stats with errors := s.stats.errors + 1 } },
     { status := ItemStatus.error, result := none, savedPath := none, errMsg := some msg },
     [QueueEvent.processing item.id, QueueEvent.error item.id msg])

/-- The drain loop of `processQueue`: repeatedly `shift` the oldest item
off the front of the queue, run `processItem` on it to a terminal status,
then move to the next item.  The classification outcome of each item is
supplied by `oracle`.  Returns the final state and the trace of
`(id, terminal status)` pairs in processing order.  The source loop is a
single `async` loop that `await`s each prediction before touching the
next item, so the recursion here is an exact model of its sequencing. -/
def drainList (oracle : QueueItem → PredictOutcome) :
    ImageQueueState → List QueueItem → ImageQueueState × List (Nat × ItemStatus)
  | s, [] => (s, [])
  | s, item :: rest =>
    let step := processItem s item (oracle item)
    let next := drainList oracle step.1 rest
    (next.1, (item.id, step.2.1.status) :: next.2)

end ImageQueue

/-! ## CollectionScheduler: data model -/

/-- One scheduled capture slot, mirroring the `{timestamp, hour, date}`
entries of `captureSchedule`.  The source stores `date` as a calendar
string; here a date is identified by the instant of its local midnight in
milliseconds (`dateMs`), and the slot instant is
`dateMs + hour * 3,600,000`, matching `captureTime.setHours(hour,0,0,0)`
applied to the date's midnight. -/
structure CaptureSlot where
  timestamp : Int
  hour : Nat
  dateMs : Int
  deriving DecidableEq

/-- Milliseconds in one hour. -/
def msPerHour : Int := 3600000

/-- Milliseconds in one day. -/
def msPerDay : Int := 86400000

/-- Schedule type selector (`config.scheduleType`). -/
inductive ScheduleType
  | dates
  | weekdays
  deriving DecidableEq

/-- Schedule specification passed to `startCollection`.  `dates` holds the
midnight instants of the explicit dates (dates mode); `startDay`/`endDay`
are epoch-day numbers of the inclusive weekday-range bounds and
`weekdays` holds requested `getDay()` values 0-6 (weekday mode). -/
structure ScheduleConfig where
  scheduleType : ScheduleType
  dates : List Int
  hours : List Nat
  startDay : Int
  endDay : Int
  weekdays : List Nat
  totalImages : Nat
  resolution : String

/-- Mutable `collectionState` of the scheduler.  `folderPath` of the
source is derived from `folderName`, so only the name is modelled;
`nextCapture` is the display string, modelled as an optional marker. -/
structure CollectionState where
  active : Bool
  paused : Bool
  collectedCount : Nat
  totalCount : Nat
  folderName : Option String
  captureSchedule : List CaptureSlot
  resolution : Option String
  nextCapture : Option Int
  deriving DecidableEq

/-- The constructor's initial `collectionState` (inactive, empty). -/
def initialCollectionState : CollectionState :=
  { active := false, paused := false, collectedCount := 0, totalCount := 0,
    folderName := none, captureSchedule := [], resolution := none, nextCapture := none }

/-- Content of the persisted `collection_schedule.json` blob:
`{schedule, state}`.  Either component may be absent in the JSON. -/
structure SavedSchedule where
  schedule : Option ScheduleConfig
  state : Option CollectionState

/-- Errors thrown synchronously by `startCollection`. -/
inductive CollectionError
  | alreadyActive
  | noValidSlots
  deriving DecidableEq

/-- Successful return value of `startCollection`:
`{success, folderName, totalSlots}`. -/
structure StartInfo where
  success : Bool
  folderName : String
  totalSlots : Nat
  deriving DecidableEq

/-- External effects performed by `startCollection`: whether the
destination folder was created (`fs.mkdir`) and whether the state was
persisted (`saveSchedule`). -/
structure StartEffects where
  folderCreated : Bool
  persisted : Bool
  deriving DecidableEq

namespace CollectionScheduler

/-- Ordering of slots by timestamp, the comparator
`(a, b) => a.timestamp - b.timestamp` used to sort the generated
schedule ascending. -/
def slotLE (a b : CaptureSlot) : Prop := a.timestamp ≤ b.timestamp

instance : DecidableRel slotLE := fun a b => Int.decLe a.timestamp b.timestamp

instance : IsTotal CaptureSlot slotLE :=
  ⟨fun a b => Int.le_total a.timestamp b.timestamp⟩

instance : IsTrans CaptureSlot slotLE :=
  ⟨fun _ _ _ h1 h2 => le_trans h1 h2⟩

/-- Slot built for a given date (midnight instant) and hour. -/
def mkSlot (dateMs : Int) (hour : Nat) : CaptureSlot :=
  { timestamp := dateMs + hour * msPerHour, hour := hour, dateMs := dateMs }

/-- Inner loop over `config.hours` for one date: build the instant for
each hour and keep it only when strictly in the future
(`captureTime > now`). -/
def slotsForDate (dateMs : Int) (hours : List Nat) (now : Int) : List CaptureSlot :=
  hours.filterMap fun h =>
    if now < (mkSlot dateMs h).timestamp then some (mkSlot dateMs h) else none

/-- JavaScript `Date.prototype.getDay` for an epoch-day number: epoch day 0
(1970-01-01) was a Thursday, i.e. weekday 4. -/
def jsGetDay (day : Int) : Nat := ((day + 4) % 7).toNat

/-- The inclusive day iteration
`for (let d = startDate; d <= endDate; d.setDate(d.getDate()+1))`,
as the list of epoch-day numbers from `startDay` to `endDay`. -/
def dayRange (startDay endDay : Int) : List Int :=
  (List.range (endDay + 1 - startDay).toNat).map fun i => startDay + (i : Int)

/-- `generateCaptureSchedule`: dates mode takes the cross-product of the
explicit dates with the hours; weekday mode iterates every day of the
inclusive range, keeping days whose weekday is requested, crossed with
the hours.  Both keep only instants strictly after `now`, and the result
is sorted ascending by timestamp.  The source sorts with
`Array.prototype.sort` (a stable comparison sort); it is modelled by
insertion sort over `slotLE`. -/
def generateCaptureSchedule (cfg : ScheduleConfig) (now : Int) : List CaptureSlot :=
  let raw : List CaptureSlot :=
    match cfg.scheduleType with
    | ScheduleType.dates =>
      cfg.dates.flatMap fun d => slotsForDate d cfg.hours now
    | ScheduleType.weekdays =>
      (dayRange cfg.startDay cfg.endDay).flatMap fun d =>
        if cfg.weekdays.contains (jsGetDay d) then
          slotsForDate (d * msPerDay) cfg.hours now
        else []
  List.insertionSort slotLE raw

/-- Destination folder identifier
`training_data_${totalImages}_${formatFolderTimestamp(firstCapture)}`.
The source formats the first slot's instant as a local yy-mm-dd-hh string;
the identifier is modelled as derived from `totalImages` and that raw
instant, which is all any claim depends on. -/
def folderNameFor (totalImages : Nat) (firstTimestamp : Int) : String :=
  "training_data_" ++ toString totalImages ++ "_" ++ toString firstTimestamp

/-- `startCollection`: throws `AlreadyActive` when a collection is active;
generates the slot list and throws `NoValidSlots` when it is empty —
both before any folder is created, any state is mutated or anything is
persisted.  Otherwise it creates the destination folder, installs the
fresh active state and persists it.  Returns the new state, the external
effects performed and the result or error. -/
def startCollection (st : CollectionState) (cfg : ScheduleConfig) (now : Int) :
    CollectionState × StartEffects × Except CollectionError StartInfo :=
  if st.active then
    (st, { folderCreated := false, persisted := false },
     Except.error CollectionError.alreadyActive)
  else
    match generateCaptureSchedule cfg now with
    | [] =>
      (st, { folderCreated := false, persisted := false },
       Except.error CollectionError.noValidSlots)
    | first :: rest =>
      let captureSchedule := first :: rest
      let folderName := folderNameFor cfg.totalImages first.timestamp
      ({ active := true, paused := false, collectedCount := 0,
         totalCount := cfg.totalImages, folderName := some folderName,
         captureSchedule := captureSchedule, resolution := some cfg.resolution,
         nextCapture := none },
       { folderCreated := true, persisted := true },
       Except.ok { success := true, folderName := folderName,
                   totalSlots := captureSchedule.length })

/-- `loadSchedule`: reading a missing or invalid file is caught and leaves
the current state; otherwise `state = saved.state || current` (a missing
`state` key keeps the constructor default). -/
def loadSchedule (current : CollectionState) (file : Option SavedSchedule) :
    CollectionState :=
  match file with
  | none => current
  | some saved => saved.state.getD current

/-- `init` (run from the constructor on process start): load the persisted
state over the constructor default, and resume the driver loop
(`startScheduledCaptures`) exactly when the loaded state is active.
Returns the in-memory state and whether the driver loop was resumed. -/
def init (file : Option SavedSchedule) : CollectionState × Bool :=
  let st := loadSchedule initialCollectionState file
  (st, st.active)

/-- `completeCollection`: clears the active and paused flags (counts and
slots are left as they are). -/
def completeCollection (st : CollectionState) : CollectionState :=
  { st with active := false, paused := false }

/-- Effect of one `captureAndSaveImage` attempt on the state: on success
(`ok = true`) the frame is captured, written, and `collectedCount` is
incremented; a thrown capture error leaves the state untouched (the
increment sits after the failing calls). -/
def captureStep (st : CollectionState) (ok : Bool) : CollectionState :=
  if ok then { st with collectedCount := st.collectedCount + 1 } else st

/-- The capture loop of `captureImages`: one planned attempt per list
entry.  Each iteration first checks the pause and cancellation flags and
breaks when the collection is no longer active or is paused; otherwise it
runs one capture attempt whose success is the list entry, with any thrown
error caught and only logged, and proceeds to the next attempt.  Returns
the final state and the number of attempts actually made. -/
def captureLoop : CollectionState → List Bool → CollectionState × Nat
  | st, [] => (st, 0)
  | st, ok :: rest =>
    if !st.active || st.paused then (st, 0)
    else
      let next := captureLoop (captureStep st ok) rest
      (next.1, next.2 + 1)

/-- `Math.ceil(a / b)` for natural `a` and positive natural `b`. -/
def jsCeilDiv (a b : Nat) : Nat := (a + b - 1) / b

/-- `imagesPerSlot = Math.ceil(totalCount / totalSlots)` where
`totalSlots = captureSchedule.length`. -/
def imagesPerSlotOf (st : CollectionState) : Nat :=
  jsCeilDiv st.totalCount st.captureSchedule.length

/-- `captureImages(slot)`, the per-slot capture burst: if the budget is
already exhausted (`collectedCount >= totalCount`) the collection is
completed with no captures; otherwise
`imagesToCapture = min(imagesPerSlot, totalCount - collectedCount)`
attempts are run through the capture loop.  `outcomes i` tells whether
the i-th attempt of this burst succeeds.  Returns the final state and
the number of capture attempts made. -/
def captureImages (st : CollectionState) (outcomes : Nat → Bool) :
    CollectionState × Nat :=
  if st.totalCount ≤ st.collectedCount then (completeCollection st, 0)
  else
    captureLoop st (List.ofFn fun i : Fin (min (imagesPerSlotOf st)
      (st.totalCount - st.collectedCount)) => outcomes i.val)

/-- A sequence of bursts, one per serviced slot: fold `captureImages`
over the per-burst outcome oracles. -/
def runBursts (st : CollectionState) (fs : List (Nat → Bool)) : CollectionState :=
  fs.foldl (fun s f => (captureImages s f).1) st

end CollectionScheduler

/-! ## Example fixtures used by witnesses and counterexamples -/

/-- An idle queue state (fresh constructor state with defaults). -/
def exampleIdleQueue : ImageQueueState :=
  { isRunning := false, interval := 5000, threshold := 7, includeOverlay := false,
    keepOnlyAnomalies := true, saveDir := "detections", queue := [],
    stats := { total := 0, anomalies := 0, normal := 0, errors := 0, startTime := none },
    captureTimer := false }

/-- A five-slot schedule at hours 1..5 of epoch day 0. -/
def exampleSlots : List CaptureSlot :=
  [CollectionScheduler.mkSlot 0 1, CollectionScheduler.mkSlot 0 2,
   CollectionScheduler.mkSlot 0 3, CollectionScheduler.mkSlot 0 4,
   CollectionScheduler.mkSlot 0 5]

/-- An active collection: budget 10, five slots, 8 already collected. -/
def exampleBurstState : CollectionState :=
  { active := true, paused := false, collectedCount := 8, totalCount := 10,
    folderName := some "training_data_10_3600000", captureSchedule := exampleSlots,
    resolution := some "1280x720", nextCapture := none }

/-! ## Theorems -/

/-- Helper: the capture-trigger recurrence in closed form: the n-th trigger
fires at `startInstant + (n+1) * interval` plus the sum of all earlier
capture durations, i.e. every capture's duration is added to all later
fire times. -/
theorem triggerTime_closed_form (startInstant interval : Nat) (duration : Nat → Nat) :
    ∀ n, ImageQueue.triggerTime startInstant interval duration n
      = startInstant + (n + 1) * interval + (Finset.range n).sum duration
  | 0 => by simp [ImageQueue.triggerTime]
  | n + 1 => by
    rw [ImageQueue.triggerTime, triggerTime_closed_form startInstant interval duration n,
      Finset.sum_range_succ]
    ring

/-- Claim C3 counterexample: with interval 100 ms and a capture callback
taking 5 ms, trigger 0 fires at 100 but trigger 1 is armed to fire at
205, not at 200 = (trigger 0's scheduled time) + interval; so the next
trigger is not armed intervalMs after the original scheduled time of the
current trigger. -/
theorem triggerTime_not_drift_free :
    ¬ (ImageQueue.triggerTime 0 100 (fun _ => 5) 1
        = ImageQueue.triggerTime 0 100 (fun _ => 5) 0 + 100) := by
  decide

/-- Claim C3 (amended): after a capture triggered by the
continuous-detection scheduler, the next capture trigger is armed to fire
intervalMs after the current trigger's callback completes (its fire time
plus the capture duration), not intervalMs after the original scheduled
time; consequently scheduling drift accumulates: the n-th trigger fires
at start + (n+1)*interval plus the sum of all earlier capture
durations. -/
theorem triggerTime_rearms_after_completion (startInstant interval : Nat)
    (duration : Nat → Nat) (n : Nat) :
    ImageQueue.triggerTime startInstant interval duration (n + 1)
      = ImageQueue.triggerTime startInstant interval duration n + duration n + interval
    ∧ ImageQueue.triggerTime startInstant interval duration n
      = startInstant + (n + 1) * interval + (Finset.range n).sum duration :=
  ⟨rfl, triggerTime_closed_form startInstant interval duration n⟩

/-- Claim C4 counterexample: calling stop() on an idle queue returns
`success = false` (with message "Queue not running"), not success. -/
theorem stop_idle_returns_failure :
    (ImageQueue.stop exampleIdleQueue).2.success = false := rfl

/-- Claim C4 (amended): calling stop() on the continuous-detection queue
when it is not running is a no-op that returns
`{success: false, message: "Queue not running"}`: the state — stats,
configuration and the queue — is returned unchanged. -/
theorem stop_idle_noop (s : ImageQueueState) (h : s.isRunning = false) :
    ImageQueue.stop s
      = (s, { success := false, message := some "Queue not running", stats := none }) := by
  simp [ImageQueue.stop, h]

/-- Witness for the amended C4 theorem at a concrete idle state. -/
theorem stop_idle_noop_witness :
    ImageQueue.stop exampleIdleQueue
      = (exampleIdleQueue,
         { success := false, message := some "Queue not running", stats := none }) :=
  stop_idle_noop exampleIdleQueue rfl

/-- Claim C8: when the generated slot list of a schedule spec is empty,
startCollection fails synchronously with the no-valid-slots error and
mutates nothing: the (inactive) prior state is returned unchanged, no
destination folder is created and nothing is persisted. -/
theorem startCollection_empty_schedule (st : CollectionState) (cfg : ScheduleConfig)
    (now : Int) (hinactive : st.active = false)
    (hempty : CollectionScheduler.generateCaptureSchedule cfg now = []) :
    CollectionScheduler.startCollection st cfg now
      = (st, { folderCreated := false, persisted := false },
         Except.error CollectionError.noValidSlots) := by
  simp [CollectionScheduler.startCollection, hinactive, hempty]

/-- Witness for the C8 theorem: a spec whose only candidate instant
(midnight of epoch day 0, hour 0) is already past at `now = 100`. -/
theorem startCollection_empty_schedule_witness :
    CollectionScheduler.startCollection initialCollectionState
        { scheduleType := ScheduleType.dates, dates := [0], hours := [0],
          startDay := 0, endDay := 0, weekdays := [], totalImages := 10,
          resolution := "1280x720" } 100
      = (initialCollectionState, { folderCreated := false, persisted := false },
         Except.error CollectionError.noValidSlots) :=
  startCollection_empty_schedule initialCollectionState
    { scheduleType := ScheduleType.dates, dates := [0], hours := [0],
      startDay := 0, endDay := 0, weekdays := [], totalImages := 10,
      resolution := "1280x720" } 100 rfl rfl

/-- Claim C9: on process start, the persisted collection state is loaded,
and when it is active the driver loop is resumed with the state exactly
as persisted — in particular collectedCount and the slot list are taken
verbatim from the persisted blob, neither regenerated nor reset. -/
theorem init_resumes_persisted (sch : Option ScheduleConfig) (st : CollectionState)
    (hactive : st.active = true) :
    CollectionScheduler.init (some { schedule := sch, state := some st }) = (st, true) := by
  simp [CollectionScheduler.init, CollectionScheduler.loadSchedule, hactive]

/-- Witness for the C9 theorem: a persisted active state with 8 collected
images and five slots resumes exactly as persisted. -/
theorem init_resumes_persisted_witness :
    CollectionScheduler.init (some { schedule := none, state := some exampleBurstState })
      = (exampleBurstState, true) :=
  init_resumes_persisted none exampleBurstState rfl

/-- Helper: one `processItem` step preserves the stats identity
`total = anomalies + normal` (errors are counted apart and never touch
`total`). -/
theorem processItem_total_split (s : ImageQueueState) (item : QueueItem)
    (o : PredictOutcome) (h : s.stats.total = s.stats.anomalies + s.stats.normal) :
    (ImageQueue.processItem s item o).1.stats.total
      = (ImageQueue.processItem s item o).1.stats.anomalies
        + (ImageQueue.processItem s item o).1.stats.normal := by
  cases o with
  | ok r =>
    simp only [ImageQueue.processItem]
    split
    · simp only []
      omega
    · simp only []
      omega
  | fail m =>
    simp only [ImageQueue.processItem]
    omega

/-- Helper: the full drain preserves the stats identity
`total = anomalies + normal`. -/
theorem drainList_total_split (oracle : QueueItem → PredictOutcome) :
    ∀ (l : List QueueItem) (s : ImageQueueState),
      s.stats.total = s.stats.anomalies + s.stats.normal →
      (ImageQueue.drainList oracle s l).1.stats.total
        = (ImageQueue.drainList oracle s l).1.stats.anomalies
          + (ImageQueue.drainList oracle s l).1.stats.normal
  | [], s, h => h
  | item :: rest, s, h =>
    drainList_total_split oracle rest _ (processItem_total_split s item (oracle item) h)

/-- Claim C5: for a run of the detection pipeline started (stats reset by
`start`) with keepOnlyAnomalies = false, after the queue is fully drained
`Stats.total = Stats.anomalies + Stats.normal`; prediction failures only
increment `Stats.errors` and never contribute to `Stats.total`. -/
theorem drain_after_start_total_split (s0 : ImageQueueState) (cfg : StartConfig)
    (now : Nat) (oracle : QueueItem → PredictOutcome) (l : List QueueItem)
    (hk : (ImageQueue.startedState s0 cfg now).keepOnlyAnomalies = false) :
    (ImageQueue.drainList oracle (ImageQueue.startedState s0 cfg now) l).1.stats.total
      = (ImageQueue.drainList oracle (ImageQueue.startedState s0 cfg now) l).1.stats.anomalies
        + (ImageQueue.drainList oracle (ImageQueue.startedState s0 cfg now) l).1.stats.normal :=
  drainList_total_split oracle l (ImageQueue.startedState s0 cfg now) rfl

/-- Witness for the C5 theorem: a fresh start with keepOnlyAnomalies=false
and a three-item queue whose outcomes are one anomaly, one normal result
and one prediction failure. -/
theorem drain_after_start_total_split_witness :
    (ImageQueue.drainList
        (fun item =>
          if item.id = 1 then PredictOutcome.ok { is_anomaly := true, predicted_class := "anomalous" }
          else if item.id = 2 then PredictOutcome.ok { is_anomaly := false, predicted_class := "normal" }
          else PredictOutcome.fail "timeout")
        (ImageQueue.startedState exampleIdleQueue
          { interval := some 1000, threshold := none, includeOverlay := none,
            keepOnlyAnomalies := some false } 50)
        [{ id := 1, filename := "capture_1.jpg", timestamp := 1 },
         { id := 2, filename := "capture_2.jpg", timestamp := 2 },
         { id := 3, filename := "capture_3.jpg", timestamp := 3 }]).1.stats.total
      = (ImageQueue.drainList
        (fun item =>
          if item.id = 1 then PredictOutcome.ok { is_anomaly := true, predicted_class := "anomalous" }
          else if item.id = 2 then PredictOutcome.ok { is_anomaly := false, predicted_class := "normal" }
          else PredictOutcome.fail "timeout")
        (ImageQueue.startedState exampleIdleQueue
          { interval := some 1000, threshold := none, includeOverlay := none,
            keepOnlyAnomalies := some false } 50)
        [{ id := 1, filename := "capture_1.jpg", timestamp := 1 },
         { id := 2, filename := "capture_2.jpg", timestamp := 2 },
         { id := 3, filename := "capture_3.jpg", timestamp := 3 }]).1.stats.anomalies
        + (ImageQueue.drainList
        (fun item =>
          if item.id = 1 then PredictOutcome.ok { is_anomaly := true, predicted_class := "anomalous" }
          else if item.id = 2 then PredictOutcome.ok { is_anomaly := false, predicted_class := "normal" }
          else PredictOutcome.fail "timeout")
        (ImageQueue.startedState exampleIdleQueue
          { interval := some 1000, threshold := none, includeOverlay := none,
            keepOnlyAnomalies := some false } 50)
        [{ id := 1, filename := "capture_1.jpg", timestamp := 1 },
         { id := 2, filename := "capture_2.jpg", timestamp := 2 },
         { id := 3, filename := "capture_3.jpg", timestamp := 3 }]).1.stats.normal :=
  drain_after_start_total_split exampleIdleQueue
    { interval := some 1000, threshold := none, includeOverlay := none,
      keepOnlyAnomalies := some false } 50
    (fun item =>
      if item.id = 1 then PredictOutcome.ok { is_anomaly := true, predicted_class := "anomalous" }
      else if item.id = 2 then PredictOutcome.ok { is_anomaly := false, predicted_class := "normal" }
      else PredictOutcome.fail "timeout")
    [{ id := 1, filename := "capture_1.jpg", timestamp := 1 },
     { id := 2, filename := "capture_2.jpg", timestamp := 2 },
     { id := 3, filename := "capture_3.jpg", timestamp := 3 }]
    rfl

/-- Claim C6: the drain loop removes the oldest pending item first and
fully processes it to a terminal status before touching the next item
(the recursion below is the exact sequencing of the source's single
awaited loop, so classification calls are fully serialized); the order in
which items reach a terminal status equals the enqueue order, and every
processed item ends in a terminal status (completed or error). -/
theorem drainList_fifo_order (oracle : QueueItem → PredictOutcome) :
    ∀ (l : List QueueItem) (s : ImageQueueState),
      ((ImageQueue.drainList oracle s l).2.map Prod.fst = l.map QueueItem.id)
      ∧ ((ImageQueue.drainList oracle s l).2.all
          (fun p => p.2 == ItemStatus.completed || p.2 == ItemStatus.error)) = true
  | [], _ => by simp [ImageQueue.drainList]
  | item :: rest, s => by
    have hterm : ((ImageQueue.processItem s item (oracle item)).2.1.status
          == ItemStatus.completed
        || (ImageQueue.processItem s item (oracle item)).2.1.status
          == ItemStatus.error) = true := by
      cases oracle item with
      | ok r =>
        simp only [ImageQueue.processItem]
        split <;> rfl
      | fail m => rfl
    have ih := drainList_fifo_order oracle rest
      (ImageQueue.processItem s item (oracle item)).1
    simp only [ImageQueue.drainList, List.map_cons, List.all_cons]
    exact ⟨by rw [ih.1], by rw [hterm, ih.2]; rfl⟩

/-- Claim C7: for an item whose classification call succeeds with result
`r`, with `isAnomaly = r.is_anomaly || r.predicted_class == "anomalous"`:
when `isAnomaly` holds, `Stats.anomalies` is incremented, the image is
persisted under the detection store and an anomaly notification carrying
the result and storage location is emitted; otherwise `Stats.normal` is
incremented and the image is persisted if and only if keepOnlyAnomalies
is false; in both cases `Stats.total` is incremented and a completed
notification is emitted. -/
theorem processItem_success_spec (s : ImageQueueState) (item : QueueItem)
    (r : PredictResult) :
    ((r.is_anomaly || r.predicted_class == ImageQueue.anomalousLabel) = true →
        (ImageQueue.processItem s item (PredictOutcome.ok r)).1.stats.anomalies
          = s.stats.anomalies + 1
      ∧ (ImageQueue.processItem s item (PredictOutcome.ok r)).2.1.savedPath
          = some (ImageQueue.saveImage s.saveDir item)
      ∧ QueueEvent.anomaly item.id r (ImageQueue.saveImage s.saveDir item)
          ∈ (ImageQueue.processItem s item (PredictOutcome.ok r)).2.2)
    ∧ ((r.is_anomaly || r.predicted_class == ImageQueue.anomalousLabel) = false →
        (ImageQueue.processItem s item (PredictOutcome.ok r)).1.stats.normal
          = s.stats.normal + 1
      ∧ ((ImageQueue.processItem s item (PredictOutcome.ok r)).2.1.savedPath).isSome
          = !s.keepOnlyAnomalies)
    ∧ (ImageQueue.processItem s item (PredictOutcome.ok r)).1.stats.total
        = s.stats.total + 1
    ∧ QueueEvent.completed item.id r
        (r.is_anomaly || r.predicted_class == ImageQueue.anomalousLabel)
        ∈ (ImageQueue.processItem s item (PredictOutcome.ok r)).2.2 := by
  refine ⟨?_, ?_, ?_, ?_⟩
  · intro ha
    simp [ImageQueue.processItem, ha]
  · intro ha
    refine ⟨?_, ?_⟩
    · simp [ImageQueue.processItem, ha]
    · cases hk : s.keepOnlyAnomalies <;> simp [ImageQueue.processItem, ha, hk]
  · by_cases ha : (r.is_anomaly || r.predicted_class == ImageQueue.anomalousLabel) = true
    · simp [ImageQueue.processItem, ha]
    · simp only [Bool.not_eq_true] at ha
      simp [ImageQueue.processItem, ha]
  · by_cases ha : (r.is_anomaly || r.predicted_class == ImageQueue.anomalousLabel) = true
    · simp [ImageQueue.processItem, ha]
    · simp only [Bool.not_eq_true] at ha
      simp [ImageQueue.processItem, ha]

/-- Witness for the C7 theorem: an anomalous result on a concrete item
(anomaly counter incremented, image saved, anomaly event emitted, total
incremented, completed event emitted). -/
theorem processItem_success_spec_witness :
    ((ImageQueue.processItem exampleIdleQueue
        { id := 1, filename := "capture_1.jpg", timestamp := 1 }
        (PredictOutcome.ok { is_anomaly := true, predicted_class := "normal" })).1.stats.anomalies
      = exampleIdleQueue.stats.anomalies + 1)
    ∧ ((ImageQueue.processItem exampleIdleQueue
        { id := 1, filename := "capture_1.jpg", timestamp := 1 }
        (PredictOutcome.ok { is_anomaly := true, predicted_class := "normal" })).2.1.savedPath
      = some (ImageQueue.saveImage exampleIdleQueue.saveDir
          { id := 1, filename := "capture_1.jpg", timestamp := 1 }))
    ∧ ((ImageQueue.processItem exampleIdleQueue
        { id := 1, filename := "capture_1.jpg", timestamp := 1 }
        (PredictOutcome.ok { is_anomaly := true, predicted_class := "normal" })).1.stats.total
      = exampleIdleQueue.stats.total + 1) := by
  have h := processItem_success_spec exampleIdleQueue
    { id := 1, filename := "capture_1.jpg", timestamp := 1 }
    { is_anomaly := true, predicted_class := "normal" }
  exact ⟨(h.1 rfl).1, (h.1 rfl).2.1, h.2.2.1⟩

/-- Helper: the capture loop breaks before attempting anything when the
collection is inactive or paused. -/
theorem captureLoop_halt (st : CollectionState) (ok : Bool) (rest : List Bool)
    (hguard : (!st.active || st.paused) = true) :
    CollectionScheduler.captureLoop st (ok :: rest) = (st, 0) := by
  simp [CollectionScheduler.captureLoop, hguard]

/-- Helper: one unfolding step of the capture loop when the collection is
active and unpaused. -/
theorem captureLoop_cons (st : CollectionState) (ok : Bool) (rest : List Bool)
    (hguard : (!st.active || st.paused) = false) :
    CollectionScheduler.captureLoop st (ok :: rest)
      = ((CollectionScheduler.captureLoop (CollectionScheduler.captureStep st ok) rest).1,
         (CollectionScheduler.captureLoop (CollectionScheduler.captureStep st ok) rest).2 + 1) := by
  simp [CollectionScheduler.captureLoop, hguard]

/-- Helper: `captureStep` only ever touches `collectedCount`. -/
theorem captureStep_fields (st : CollectionState) (ok : Bool) :
    (CollectionScheduler.captureStep st ok).active = st.active
    ∧ (CollectionScheduler.captureStep st ok).paused = st.paused
    ∧ (CollectionScheduler.captureStep st ok).totalCount = st.totalCount
    ∧ (CollectionScheduler.captureStep st ok).captureSchedule = st.captureSchedule
    ∧ (CollectionScheduler.captureStep st ok).collectedCount
        = st.collectedCount + (if ok then 1 else 0) := by
  cases ok <;> simp [CollectionScheduler.captureStep]

/-- Helper: on an active, unpaused state the capture loop makes one
attempt per planned entry (failures never break the loop), increments
`collectedCount` once per successful attempt, and leaves the flags, the
budget and the slot list untouched. -/
theorem captureLoop_run :
    ∀ (l : List Bool) (st : CollectionState),
      st.active = true → st.paused = false →
      (CollectionScheduler.captureLoop st l).2 = l.length
      ∧ (CollectionScheduler.captureLoop st l).1.collectedCount
          = st.collectedCount + l.count true
      ∧ (CollectionScheduler.captureLoop st l).1.active = true
      ∧ (CollectionScheduler.captureLoop st l).1.paused = false
      ∧ (CollectionScheduler.captureLoop st l).1.totalCount = st.totalCount
      ∧ (CollectionScheduler.captureLoop st l).1.captureSchedule = st.captureSchedule
  | [], st, ha, hp => by simp [CollectionScheduler.captureLoop, ha, hp]
  | ok :: rest, st, ha, hp => by
    have hguard : (!st.active || st.paused) = false := by simp [ha, hp]
    have hstep := captureStep_fields st ok
    have ih := captureLoop_run rest (CollectionScheduler.captureStep st ok)
      (by rw [hstep.1, ha]) (by rw [hstep.2.1, hp])
    rw [captureLoop_cons st ok rest hguard]
    refine ⟨by simp [ih.1], ?_, ih.2.2.1, ih.2.2.2.1, ?_, ?_⟩
    · show (CollectionScheduler.captureLoop (CollectionScheduler.captureStep st ok)
          rest).1.collectedCount = st.collectedCount + (ok :: rest).count true
      rw [ih.2.1, hstep.2.2.2.2, List.count_cons]
      cases ok <;> simp <;> omega
    · show (CollectionScheduler.captureLoop (CollectionScheduler.captureStep st ok)
          rest).1.totalCount = st.totalCount
      rw [ih.2.2.2.2.1, hstep.2.2.1]
    · show (CollectionScheduler.captureLoop (CollectionScheduler.captureStep st ok)
          rest).1.captureSchedule = st.captureSchedule
      rw [ih.2.2.2.2.2, hstep.2.2.2.1]

/-- Helper: for any flags and any attempt outcomes, the capture loop adds
at most one collected image per planned attempt and never changes the
budget. -/
theorem captureLoop_bound :
    ∀ (l : List Bool) (st : CollectionState),
      (CollectionScheduler.captureLoop st l).1.collectedCount
          ≤ st.collectedCount + l.length
      ∧ (CollectionScheduler.captureLoop st l).1.totalCount = st.totalCount
  | [], st => by simp [CollectionScheduler.captureLoop]
  | ok :: rest, st => by
    by_cases hguard : (!st.active || st.paused) = true
    · rw [captureLoop_halt st ok rest hguard]
      exact ⟨Nat.le_add_right _ _, rfl⟩
    · rw [Bool.not_eq_true] at hguard
      have hstep := captureStep_fields st ok
      have ih := captureLoop_bound rest (CollectionScheduler.captureStep st ok)
      rw [captureLoop_cons st ok rest hguard]
      constructor
      · show (CollectionScheduler.captureLoop (CollectionScheduler.captureStep st ok)
            rest).1.collectedCount ≤ st.collectedCount + (ok :: rest).length
        have h1 := ih.1
        have h2 := hstep.2.2.2.2
        simp only [List.length_cons]
        cases ok <;> simp at h2 <;> omega
      · show (CollectionScheduler.captureLoop (CollectionScheduler.captureStep st ok)
            rest).1.totalCount = st.totalCount
        rw [ih.2, hstep.2.2.1]

/-- Helper: a capture burst preserves the invariant
`collectedCount ≤ totalCount` and never changes the budget. -/
theorem captureImages_preserves_budget (st : CollectionState) (f : Nat → Bool)
    (h : st.collectedCount ≤ st.totalCount) :
    (CollectionScheduler.captureImages st f).1.collectedCount ≤ st.totalCount
    ∧ (CollectionScheduler.captureImages st f).1.totalCount = st.totalCount := by
  unfold CollectionScheduler.captureImages
  split
  · simpa [CollectionScheduler.completeCollection] using h
  · have hb := captureLoop_bound
      (List.ofFn fun i : Fin (min (CollectionScheduler.imagesPerSlotOf st)
        (st.totalCount - st.collectedCount)) => f i.val) st
    simp only [List.length_ofFn] at hb
    have h1 := hb.1
    exact ⟨by omega, hb.2⟩

/-- Helper: across any sequence of bursts, collectedCount never exceeds
the budget (so the sum of all captures never exceeds totalImages). -/
theorem runBursts_bound :
    ∀ (fs : List (Nat → Bool)) (st : CollectionState),
      st.collectedCount ≤ st.totalCount →
      (CollectionScheduler.runBursts st fs).collectedCount ≤ st.totalCount
  | [], st, h => h
  | f :: rest, st, h => by
    have hstep := captureImages_preserves_budget st f h
    have ih := runBursts_bound rest (CollectionScheduler.captureImages st f).1
      (by omega)
    simpa [CollectionScheduler.runBursts, List.foldl_cons] using
      le_trans ih (le_of_eq hstep.2)

/-- Claim C1: an uninterrupted per-slot burst of an active collection with
budget `totalCount`, `S = captureSchedule.length ≥ 1` generated slots and
current `collectedCount ≤ totalCount`, all of whose captures succeed,
makes exactly `min(ceil(totalCount / S), totalCount − collectedCount)`
captures, each incrementing collectedCount by one; collectedCount never
exceeds totalCount, and across any sequence of bursts collectedCount —
and hence the total number of captures — never exceeds the budget. -/
theorem captureImages_burst_spec (st : CollectionState) (outcomes : Nat → Bool)
    (fs : List (Nat → Bool))
    (ha : st.active = true) (hp : st.paused = false)
    (hS : 1 ≤ st.captureSchedule.length)
    (hle : st.collectedCount ≤ st.totalCount)
    (hok : ∀ i, outcomes i = true) :
    (CollectionScheduler.captureImages st outcomes).2
        = min (CollectionScheduler.jsCeilDiv st.totalCount st.captureSchedule.length)
              (st.totalCount - st.collectedCount)
    ∧ (CollectionScheduler.captureImages st outcomes).1.collectedCount
        = st.collectedCount + (CollectionScheduler.captureImages st outcomes).2
    ∧ (CollectionScheduler.captureImages st outcomes).1.collectedCount ≤ st.totalCount
    ∧ (CollectionScheduler.runBursts st fs).collectedCount ≤ st.totalCount := by
  have key : (CollectionScheduler.captureImages st outcomes).2
        = min (CollectionScheduler.jsCeilDiv st.totalCount st.captureSchedule.length)
              (st.totalCount - st.collectedCount)
      ∧ (CollectionScheduler.captureImages st outcomes).1.collectedCount
        = st.collectedCount + (CollectionScheduler.captureImages st outcomes).2 := by
    unfold CollectionScheduler.captureImages
    split
    · rename_i hfull
      have hzero : st.totalCount - st.collectedCount = 0 := by omega
      exact ⟨by simp [hzero], by simp [CollectionScheduler.completeCollection]⟩
    · have hlist : (List.ofFn fun i : Fin (min (CollectionScheduler.imagesPerSlotOf st)
            (st.totalCount - st.collectedCount)) => outcomes i.val)
          = List.replicate (min (CollectionScheduler.imagesPerSlotOf st)
              (st.totalCount - st.collectedCount)) true := by
        rw [show (fun i : Fin (min (CollectionScheduler.imagesPerSlotOf st)
              (st.totalCount - st.collectedCount)) => outcomes i.val)
            = fun _ => true from funext fun i => hok i.val]
        exact List.ofFn_const _ true
      rw [hlist]
      have hrun := captureLoop_run
        (List.replicate (min (CollectionScheduler.imagesPerSlotOf st)
          (st.totalCount - st.collectedCount)) true) st ha hp
      refine ⟨?_, ?_⟩
      · rw [hrun.1, List.length_replicate]
        rfl
      · rw [hrun.2.1, hrun.1, List.count_replicate, List.length_replicate]
        simp
  exact ⟨key.1, key.2, (captureImages_preserves_budget st outcomes hle).1,
    runBursts_bound fs st hle⟩

/-- Witness for the C1 theorem: budget 10 over 5 slots with 8 already
collected; the burst makes exactly min(2, 2) = 2 captures, reaching the
budget exactly. -/
theorem captureImages_burst_spec_witness :
    ((CollectionScheduler.captureImages exampleBurstState fun _ => true).2
        = min (CollectionScheduler.jsCeilDiv exampleBurstState.totalCount
              exampleBurstState.captureSchedule.length)
              (exampleBurstState.totalCount - exampleBurstState.collectedCount))
    ∧ ((CollectionScheduler.captureImages exampleBurstState fun _ => true).1.collectedCount
        = exampleBurstState.collectedCount
          + (CollectionScheduler.captureImages exampleBurstState fun _ => true).2)
    ∧ ((CollectionScheduler.captureImages exampleBurstState fun _ => true).1.collectedCount
        ≤ exampleBurstState.totalCount)
    ∧ ((CollectionScheduler.runBursts exampleBurstState
          [fun _ => true, fun _ => true]).collectedCount
        ≤ exampleBurstState.totalCount) :=
  captureImages_burst_spec exampleBurstState (fun _ => true)
    [fun _ => true, fun _ => true] rfl rfl (by decide) (by decide) fun _ => rfl

/-- Claim C10: during a per-slot burst of an active, unpaused collection
with remaining budget, a failed individual capture is swallowed: the
planned number of attempts `min(imagesPerSlot, remaining)` is still made
in full (the burst proceeds instead of aborting), collectedCount is
incremented only for the successful attempts (never for a failed one),
and the collection stays active and unpaused.  The `CollectionState`
record carries no error counter at all, so no error counter can be
incremented. -/
theorem captureImages_failure_swallowed (st : CollectionState) (outcomes : Nat → Bool)
    (ha : st.active = true) (hp : st.paused = false)
    (hlt : st.collectedCount < st.totalCount) :
    (CollectionScheduler.captureImages st outcomes).2
        = min (CollectionScheduler.imagesPerSlotOf st)
              (st.totalCount - st.collectedCount)
    ∧ (CollectionScheduler.captureImages st outcomes).1.collectedCount
        = st.collectedCount
          + (List.ofFn fun i : Fin (min (CollectionScheduler.imagesPerSlotOf st)
              (st.totalCount - st.collectedCount)) => outcomes i.val).count true
    ∧ (CollectionScheduler.captureImages st outcomes).1.active = true
    ∧ (CollectionScheduler.captureImages st outcomes).1.paused = false := by
  unfold CollectionScheduler.captureImages
  rw [if_neg (by omega)]
  have hrun := captureLoop_run
    (List.ofFn fun i : Fin (min (CollectionScheduler.imagesPerSlotOf st)
      (st.totalCount - st.collectedCount)) => outcomes i.val) st ha hp
  refine ⟨?_, hrun.2.1, hrun.2.2.1, hrun.2.2.2.1⟩
  rw [hrun.1, List.length_ofFn]

/-- Witness for the C10 theorem: same state as the C1 witness, but the
first of the two attempts fails: both attempts are still made, only one
capture is counted and the collection stays active. -/
theorem captureImages_failure_swallowed_witness :
    ((CollectionScheduler.captureImages exampleBurstState fun i => i == 1).2
        = min (CollectionScheduler.imagesPerSlotOf exampleBurstState)
              (exampleBurstState.totalCount - exampleBurstState.collectedCount))
    ∧ ((CollectionScheduler.captureImages exampleBurstState fun i => i == 1).1.collectedCount
        = exampleBurstState.collectedCount
          + (List.ofFn fun i : Fin (min (CollectionScheduler.imagesPerSlotOf exampleBurstState)
              (exampleBurstState.totalCount - exampleBurstState.collectedCount)) =>
                i.val == 1).count true)
    ∧ ((CollectionScheduler.captureImages exampleBurstState fun i => i == 1).1.active = true)
    ∧ ((CollectionScheduler.captureImages exampleBurstState fun i => i == 1).1.paused = false) :=
  captureImages_failure_swallowed exampleBurstState (fun i => i == 1) rfl rfl (by decide)

/-- Helper: when every hour of a date is in the future, the future filter
keeps every (date, hour) pair, one slot per hour. -/
theorem slotsForDate_all_future (d : Int) (now : Int) :
    ∀ hours : List Nat,
      (∀ x ∈ hours, now < (CollectionScheduler.mkSlot d x).timestamp) →
      CollectionScheduler.slotsForDate d hours now
        = hours.map fun x => CollectionScheduler.mkSlot d x
  | [], _ => rfl
  | a :: t, h => by
    have ht := slotsForDate_all_future d now t
      fun x hx => h x (List.mem_cons_of_mem a hx)
    simp only [CollectionScheduler.slotsForDate, List.filterMap_cons] at ht ⊢
    rw [if_pos (h a (List.mem_cons_self a t)), ht, List.map_cons]

/-- Helper: when every candidate instant is in the future, the raw
schedule of dates mode is exactly the cross-product of dates and hours. -/
theorem rawSchedule_all_future (hours : List Nat) (now : Int) :
    ∀ dates : List Int,
      (∀ d ∈ dates, ∀ x ∈ hours, now < (CollectionScheduler.mkSlot d x).timestamp) →
      (dates.flatMap fun d => CollectionScheduler.slotsForDate d hours now)
        = dates.flatMap fun d => hours.map fun x => CollectionScheduler.mkSlot d x
  | [], _ => rfl
  | a :: t, h => by
    have ht := rawSchedule_all_future hours now t
      fun d hd x hx => h d (List.mem_cons_of_mem a hd) x hx
    simp only [List.flatMap_cons, ht,
      slotsForDate_all_future a now hours (h a (List.mem_cons_self a t))]

/-- Helper: the cross-product has one entry per (date, hour) pair. -/
theorem length_cross {α β γ : Type} (m : List β) (f : α → β → γ) :
    ∀ l : List α, (l.flatMap fun a => m.map (f a)).length = l.length * m.length
  | [] => by simp
  | a :: t => by
    simp only [List.flatMap_cons, List.length_append, List.length_map,
      length_cross m f t, List.length_cons]
    ring

/-- Helper: every slot kept by the future filter has its instant strictly
after now. -/
theorem mem_slotsForDate_future (d : Int) (hours : List Nat) (now : Int)
    (s : CaptureSlot) (hs : s ∈ CollectionScheduler.slotsForDate d hours now) :
    now < s.timestamp := by
  simp only [CollectionScheduler.slotsForDate, List.mem_filterMap] at hs
  obtain ⟨x, _, hopt⟩ := hs
  by_cases hlt : now < (CollectionScheduler.mkSlot d x).timestamp
  · rw [if_pos hlt] at hopt
    cases hopt
    exact hlt
  · rw [if_neg hlt] at hopt
    cases hopt

/-- Claim C2: for an explicit-dates schedule spec whose every (date, hour)
instant is strictly in the future at generation time, slot generation
returns exactly `dates.length * hours.length` slots, sorted ascending by
timestamp, and the result is a permutation of the full cross-product
(one slot per (date, hour) pair); moreover every slot of the result has
its instant strictly after now, so every pair whose instant is ≤ now at
generation time is excluded. -/
theorem generateCaptureSchedule_dates_spec (cfg : ScheduleConfig) (now : Int)
    (hmode : cfg.scheduleType = ScheduleType.dates)
    (hfut : ∀ d ∈ cfg.dates, ∀ x ∈ cfg.hours,
      now < (CollectionScheduler.mkSlot d x).timestamp) :
    (CollectionScheduler.generateCaptureSchedule cfg now).length
        = cfg.dates.length * cfg.hours.length
    ∧ List.Sorted CollectionScheduler.slotLE
        (CollectionScheduler.generateCaptureSchedule cfg now)
    ∧ List.Perm (CollectionScheduler.generateCaptureSchedule cfg now)
        (cfg.dates.flatMap fun d => cfg.hours.map fun x => CollectionScheduler.mkSlot d x)
    ∧ ∀ s ∈ CollectionScheduler.generateCaptureSchedule cfg now, now < s.timestamp := by
  have hgen : CollectionScheduler.generateCaptureSchedule cfg now
      = List.insertionSort CollectionScheduler.slotLE
          (cfg.dates.flatMap fun d => CollectionScheduler.slotsForDate d cfg.hours now) := by
    simp only [CollectionScheduler.generateCaptureSchedule, hmode]
  have hraw := rawSchedule_all_future cfg.hours now cfg.dates hfut
  have hperm : List.Perm (CollectionScheduler.generateCaptureSchedule cfg now)
      (cfg.dates.flatMap fun d => cfg.hours.map fun x => CollectionScheduler.mkSlot d x) := by
    rw [hgen, hraw]
    exact List.perm_insertionSort CollectionScheduler.slotLE _
  refine ⟨?_, ?_, hperm, ?_⟩
  · rw [hperm.length_eq]
    exact length_cross cfg.hours CollectionScheduler.mkSlot cfg.dates
  · rw [hgen]
    exact List.sorted_insertionSort CollectionScheduler.slotLE _
  · intro s hs
    rw [hgen] at hs
    have hmem : s ∈ cfg.dates.flatMap
        fun d => CollectionScheduler.slotsForDate d cfg.hours now :=
      (List.perm_insertionSort CollectionScheduler.slotLE _).mem_iff.mp hs
    obtain ⟨d, _, hsd⟩ := List.mem_flatMap.mp hmem
    exact mem_slotsForDate_future d cfg.hours now s hsd

/-- Witness for the C2 theorem: two dates (epoch days 2 and 1, given by
their midnight instants) and two hours (1 and 0), all four instants
future at now = 0: four slots, sorted, a permutation of the
cross-product. -/
theorem generateCaptureSchedule_dates_spec_witness :
    ((CollectionScheduler.generateCaptureSchedule
        { scheduleType := ScheduleType.dates, dates := [172800000, 86400000],
          hours := [1, 0], startDay := 0, endDay := 0, weekdays := [],
          totalImages := 10, resolution := "1280x720" } 0).length = 2 * 2)
    ∧ List.Sorted CollectionScheduler.slotLE
        (CollectionScheduler.generateCaptureSchedule
          { scheduleType := ScheduleType.dates, dates := [172800000, 86400000],
            hours := [1, 0], startDay := 0, endDay := 0, weekdays := [],
            totalImages := 10, resolution := "1280x720" } 0)
    ∧ List.Perm (CollectionScheduler.generateCaptureSchedule
          { scheduleType := ScheduleType.dates, dates := [172800000, 86400000],
            hours := [1, 0], startDay := 0, endDay := 0, weekdays := [],
            totalImages := 10, resolution := "1280x720" } 0)
        ([172800000, 86400000].flatMap fun d =>
          [1, 0].map fun x => CollectionScheduler.mkSlot d x) := by
  have h := generateCaptureSchedule_dates_spec
    { scheduleType := ScheduleType.dates, dates := [172800000, 86400000],
      hours := [1, 0], startDay := 0, endDay := 0, weekdays := [],
      totalImages := 10, resolution := "1280x720" } 0 rfl (by decide)
  exact ⟨h.1, h.2.1, h.2.2.1⟩

end CamWeb
